import Mathlib

/-!
Shallow embedding of the ephemeral-chat backend (`src/backend/main.py`).

Timestamps are modelled as natural numbers (seconds); each call of
`datetime.now()` in the Python source becomes its own explicit time
parameter, since the source reads the clock separately at each call site.
The SQLite tables become lists of rows inside a `DB` record; the
Socket.IO room membership becomes a list of `(room, sid)` pairs; each
event handler is a pure function from inputs and state to a new state
plus an ordered list of emissions.
-/

namespace FiveMChat

/-- Message TTL: `timedelta(minutes=5)`, in seconds. -/
def TTL : Nat := 300

/-- A row of the `messages` table. -/
structure MessageRow where
  id : Nat
  username : String
  content : String
  room : String
  timestamp : Nat
  expires_at : Nat
  message_type : String
  image_url : Option String
  voice_url : Option String
  file_path : Option String
deriving DecidableEq

/-- A row of the `rooms` table. -/
structure RoomRow where
  name : String
  created_at : Nat
deriving DecidableEq

/-- A row of the `user_sessions` table. -/
structure SessionRow where
  session_id : String
  username : String
  room : String
  joined_at : Nat
deriving DecidableEq

/-- The database state: the three tables created by `init_db`. -/
structure DB where
  messages : List MessageRow
  rooms : List RoomRow
  user_sessions : List SessionRow
deriving DecidableEq

/-- The freshly initialised database (`init_db` on a new file). -/
def init_db : DB := ⟨[], [], []⟩

/-- The pydantic `Message` model returned to clients (no expiry, no file path). -/
structure Message where
  id : Nat
  username : String
  content : String
  room : String
  timestamp : Nat
  message_type : String
  image_url : Option String
  voice_url : Option String
deriving DecidableEq

/-- The pydantic `MessageCreate` model (validated send payload). -/
structure MessageCreate where
  username : String
  content : String
  room : String
  message_type : String
  image_url : Option String
  voice_url : Option String
deriving DecidableEq

/-- Row construction in `create_message`: `timestamp` is the first clock
read `t1`, `expires_at` is the second clock read `t2` plus the TTL. -/
def newRow (md : MessageCreate) (fp : Option String) (mid t1 t2 : Nat) : MessageRow :=
  ⟨mid, md.username, md.content, md.room, t1, t2 + TTL, md.message_type,
    md.image_url, md.voice_url, fp⟩

/-- The `Message` value a row is rendered to by `get_room_messages`
(`row['message_type'] or "text"` maps a falsy stored tag to `"text"`). -/
def toMessage (r : MessageRow) : Message :=
  ⟨r.id, r.username, r.content, r.room, r.timestamp,
    if r.message_type = "" then "text" else r.message_type,
    r.image_url, r.voice_url⟩

/-- `create_message`: inserts a row and returns the client-facing `Message`.
`mid` models the generated uuid, `t1` the `datetime.now()` read used for
`timestamp`, `t2` the separate `datetime.now()` read used for `expires_at`. -/
def create_message (md : MessageCreate) (fp : Option String) (mid t1 t2 : Nat)
    (db : DB) : DB × Message :=
  ({db with messages := db.messages ++ [newRow md fp mid t1 t2]},
   ⟨mid, md.username, md.content, md.room, t1, md.message_type,
     md.image_url, md.voice_url⟩)

/-- Comparison used by `ORDER BY timestamp ASC`. -/
def msgRowLe (a b : MessageRow) : Prop := a.timestamp ≤ b.timestamp

instance : DecidableRel msgRowLe := fun a b => Nat.decLe a.timestamp b.timestamp

instance : IsTotal MessageRow msgRowLe := ⟨fun a b => Nat.le_total a.timestamp b.timestamp⟩

instance : IsTrans MessageRow msgRowLe := ⟨fun _ _ _ h1 h2 => Nat.le_trans h1 h2⟩

/-- Ordering on the client `Message` view by creation time ascending. -/
def msgLe (a b : Message) : Prop := a.timestamp ≤ b.timestamp

/-- `get_room_messages`: rows of the room whose `expires_at > now`,
ordered by `timestamp` ascending, rendered to `Message`. -/
def get_room_messages (room : String) (t : Nat) (db : DB) : List Message :=
  (List.insertionSort msgRowLe
    (db.messages.filter (fun m => m.room == room && decide (t < m.expires_at)))).map toMessage

/-- `create_room`: `INSERT` with `name` as primary key; an
`IntegrityError` (row already present) is swallowed; the returned `Room`
always carries the current call's timestamp. -/
def create_room (name : String) (t : Nat) (db : DB) : DB × RoomRow :=
  if db.rooms.any (fun r => r.name == name) then (db, ⟨name, t⟩)
  else ({db with rooms := db.rooms ++ [⟨name, t⟩]}, ⟨name, t⟩)

/-- Comparison used by `ORDER BY r.created_at DESC`. -/
def roomGe (a b : RoomRow) : Prop := b.created_at ≤ a.created_at

instance : DecidableRel roomGe := fun a b => Nat.decLe b.created_at a.created_at

instance : IsTotal RoomRow roomGe := ⟨fun a b => Nat.le_total b.created_at a.created_at⟩

instance : IsTrans RoomRow roomGe := ⟨fun _ _ _ h1 h2 => Nat.le_trans h2 h1⟩

/-- `get_active_rooms`: `SELECT DISTINCT` rooms having at least one
message with `expires_at > now`, ordered by `created_at` descending. -/
def get_active_rooms (t : Nat) (db : DB) : List RoomRow :=
  List.insertionSort roomGe
    ((db.rooms.filter (fun r =>
        db.messages.any (fun m => m.room == r.name && decide (t < m.expires_at)))).dedup)

/-- `add_user_session`: plain `INSERT` with `session_id` as primary key;
a duplicate key raises `sqlite3.IntegrityError`, modelled as `.error ()`. -/
def add_user_session (sid username room : String) (t : Nat) (db : DB) :
    Except Unit DB :=
  if db.user_sessions.any (fun s => s.session_id == sid) then .error ()
  else .ok {db with user_sessions := db.user_sessions ++ [⟨sid, username, room, t⟩]}

/-- `remove_user_session`: `DELETE FROM user_sessions WHERE session_id = ?`;
deleting an absent row is not an error. -/
def remove_user_session (sid : String) (db : DB) : DB :=
  {db with user_sessions := db.user_sessions.filter (fun s => s.session_id != sid)}

/-- `get_room_active_users`: usernames of all sessions in the room. -/
def get_room_active_users (room : String) (db : DB) : List String :=
  (db.user_sessions.filter (fun s => s.room == room)).map (fun s => s.username)

/-- The file-deletion loop of `cleanup_expired_messages`: for each path,
skip it when falsy or absent from the file system `fs`; otherwise remove
it, and when `os.remove` raises (the `faults` oracle) log the path and
continue. Returns the remaining files and the log entries in order. -/
def deleteFiles : List String → List String → (String → Bool) → List String × List String
  | [], fs, _ => (fs, [])
  | p :: ps, fs, faults =>
    if p ≠ "" ∧ p ∈ fs then
      if faults p then
        let r := deleteFiles ps fs faults
        (r.1, p :: r.2)
      else deleteFiles ps (fs.erase p) faults
    else deleteFiles ps fs faults

/-- `cleanup_expired_messages`: the `SELECT file_path` uses one clock
read `t1`, the `DELETE` a second read `t2`; then the returned paths are
deleted from the file system. Result: new database, the selected
`expired_files`, the remaining files, and the error log. -/
def cleanup_expired_messages (t1 t2 : Nat) (db : DB) (fs : List String)
    (faults : String → Bool) : DB × List String × List String × List String :=
  let expired_files :=
    (db.messages.filter (fun m => decide (m.expires_at ≤ t1))).filterMap (fun m => m.file_path)
  let db2 : DB := {db with messages := db.messages.filter (fun m => !decide (m.expires_at ≤ t2))}
  let r := deleteFiles expired_files fs faults
  (db2, expired_files, r.1, r.2)

/-- Python truthiness of an optional string field (`data.get(...)`):
falsy when missing or empty. -/
def truthy : Option String → Bool
  | none => false
  | some s => s != ""

/-- An outbound Socket.IO payload. -/
inductive EventPayload where
  | connectedMsg (text : String)
  | errorMsg (text : String)
  | roomHistory (messages : List Message) (active_users : List String)
  | userJoined (username room : String) (active_users : List String)
  | userLeft (username room : String) (active_users : List String)
  | newMessage (m : Message)
deriving DecidableEq

/-- One `sio.emit` call: the resolved recipient sids, in membership
order, and the payload. -/
structure Emission where
  recipients : List String
  payload : EventPayload
deriving DecidableEq

/-- Gateway state: the database plus the Socket.IO room membership,
a list of `(room, sid)` pairs in join order. -/
structure GState where
  db : DB
  members : List (String × String)
deriving DecidableEq

/-- Sids currently in a Socket.IO room, in join order. -/
def roomMembersL (members : List (String × String)) (room : String) : List String :=
  (members.filter (fun p => p.1 == room)).map (fun p => p.2)

/-- `sio.enter_room`: add the `(room, sid)` pair if not already present. -/
def sioEnterRoom (sid room : String) (members : List (String × String)) :
    List (String × String) :=
  if (room, sid) ∈ members then members else members ++ [(room, sid)]

/-- `sio.leave_room`: drop the `(room, sid)` pair. -/
def sioLeaveRoom (sid room : String) (members : List (String × String)) :
    List (String × String) :=
  members.filter (fun p => !(p.1 == room && p.2 == sid))

/-- Result of running one event handler: the new gateway state, the
ordered emissions, and whether an exception escaped the handler to the
Socket.IO layer (mutations made before the raise are kept). -/
structure HandlerResult where
  state : GState
  emits : List Emission
  raised : Bool
deriving DecidableEq

/-- The `join_room` handler. `t1` is the clock read inside `create_room`,
`t2` the one inside `add_user_session`, `t3` the one inside
`get_room_messages`. A duplicate-key `IntegrityError` from
`add_user_session` escapes the handler uncaught. -/
def join_room (sid : String) (droom duser : Option String) (t1 t2 t3 : Nat)
    (st : GState) : HandlerResult :=
  if truthy droom = false || truthy duser = false then
    ⟨st, [⟨[sid], .errorMsg "Room and username required"⟩], false⟩
  else
    let room := droom.getD ""
    let username := duser.getD ""
    let db1 := (create_room room t1 st.db).1
    match add_user_session sid username room t2 db1 with
    | .error _ => ⟨{st with db := db1}, [], true⟩
    | .ok db2 =>
      let members2 := sioEnterRoom sid room st.members
      let msgs := get_room_messages room t3 db2
      let active := get_room_active_users room db2
      ⟨⟨db2, members2⟩,
        [⟨[sid], .roomHistory msgs active⟩,
         ⟨(roomMembersL members2 room).filter (fun x => x != sid),
           .userJoined username room active⟩],
        false⟩

/-- The `leave_room` handler: nothing happens unless `room` is truthy;
the sid leaves the Socket.IO room and its session is removed; `user_left`
is emitted (to the remaining members) only when `username` is also truthy. -/
def leave_room (sid : String) (droom duser : Option String) (st : GState) :
    GState × List Emission :=
  if truthy droom then
    let room := droom.getD ""
    let members2 := sioLeaveRoom sid room st.members
    let db2 := remove_user_session sid st.db
    if truthy duser then
      let username := duser.getD ""
      let active := get_room_active_users room db2
      (⟨db2, members2⟩, [⟨roomMembersL members2 room, .userLeft username room active⟩])
    else (⟨db2, members2⟩, [])
  else (st, [])

/-- The raw payload of a `send_message` event before pydantic validation. -/
structure SendData where
  username : Option String
  content : Option String
  room : Option String
  message_type : Option String
  image_url : Option String
  voice_url : Option String
deriving DecidableEq

/-- `MessageCreate(**data)`: the three required string fields must be
present (empty strings pass); `message_type` defaults to `"text"`. -/
def parseMessageCreate (d : SendData) : Except String MessageCreate :=
  match d.username, d.content, d.room with
  | some u, some c, some r =>
      .ok ⟨u, c, r, d.message_type.getD "text", d.image_url, d.voice_url⟩
  | _, _, _ => .error "Error sending message: validation error"

/-- The `send_message` handler: on a validation error, emit `error` to
the sender only; otherwise store the message and emit `new_message` to
the members of the payload's room. -/
def send_message (sid : String) (d : SendData) (mid t1 t2 : Nat) (st : GState) :
    GState × List Emission :=
  match parseMessageCreate d with
  | .error e => (st, [⟨[sid], .errorMsg e⟩])
  | .ok md =>
    let r := create_message md none mid t1 t2 st.db
    (⟨r.1, st.members⟩, [⟨roomMembersL st.members md.room, .newMessage r.2⟩])

/-- The `disconnect` handler: the whole body is wrapped in
`try ... except ... finally`, so an internal error (the `fault` flag)
is caught and logged, leaving state and emissions untouched. With no
fault: if the sid has a session, remove it and emit `user_left` to its
room; otherwise do nothing. -/
def disconnect (fault : Bool) (sid : String) (st : GState) : GState × List Emission :=
  if fault then (st, [])
  else
    match st.db.user_sessions.find? (fun s => s.session_id == sid) with
    | none => (st, [])
    | some s =>
      let db2 := remove_user_session sid st.db
      let active := get_room_active_users s.room db2
      (⟨db2, st.members⟩,
       [⟨roomMembersL st.members s.room, .userLeft s.username s.room active⟩])

/-! ## Invariants and helper lemmas -/

/-- The session-table invariant enforced by the `session_id PRIMARY KEY`
column of `init_db`: session identifiers are pairwise distinct. -/
def SessionsOK (db : DB) : Prop :=
  (db.user_sessions.map (fun s => s.session_id)).Nodup

/-- Claim C10: creating a room whose name is already stored leaves the
stored row (and the whole database) unchanged, yet returns a `Room`
stamped with the current call's timestamp, which therefore differs from
the stored creation time whenever the two timestamps differ. -/
theorem C10_create_room_existing (db : DB) (name : String) (t c : Nat)
    (h : (⟨name, c⟩ : RoomRow) ∈ db.rooms) :
    (create_room name t db).1 = db ∧ (create_room name t db).2 = ⟨name, t⟩ ∧
      (c ≠ t → (create_room name t db).2.created_at ≠ c) := by
  have hany : db.rooms.any (fun r => r.name == name) = true := by
    rw [List.any_eq_true]
    exact ⟨⟨name, c⟩, h, by simp⟩
  refine ⟨by simp [create_room, hany], by simp [create_room, hany], ?_⟩
  intro hc
  simp [create_room, hany]
  omega

/-- Witness for C10 at a concrete database. -/
theorem C10_create_room_existing_witness :
    (create_room "lobby" 7 (DB.mk [] [⟨"lobby", 3⟩] [])).1 = DB.mk [] [⟨"lobby", 3⟩] [] ∧
    (create_room "lobby" 7 (DB.mk [] [⟨"lobby", 3⟩] [])).2 = ⟨"lobby", 7⟩ ∧
    ((3 : Nat) ≠ 7 → (create_room "lobby" 7 (DB.mk [] [⟨"lobby", 3⟩] [])).2.created_at ≠ 3) :=
  C10_create_room_existing (DB.mk [] [⟨"lobby", 3⟩] []) "lobby" 7 3 (by simp)

/-- Claim C4: under the primary-key invariant, each connection has at
most one session; removing the session of an identifier that has none is
a no-op; removal is idempotent; and both removal and a successful insert
preserve the invariant. -/
theorem C4_session_invariant (db : DB) (sid : String) (h : SessionsOK db) :
    (db.user_sessions.filter (fun s => s.session_id == sid)).length ≤ 1 ∧
    (sid ∉ db.user_sessions.map (fun s => s.session_id) →
      remove_user_session sid db = db) ∧
    remove_user_session sid (remove_user_session sid db) = remove_user_session sid db ∧
    SessionsOK (remove_user_session sid db) ∧
    (∀ u r t db2, add_user_session sid u r t db = .ok db2 → SessionsOK db2) := by
  refine ⟨?_, ?_, ?_, ?_, ?_⟩
  · have hcount := List.nodup_iff_count_le_one.mp h sid
    calc (db.user_sessions.filter (fun s => s.session_id == sid)).length
        = List.countP (fun s => s.session_id == sid) db.user_sessions :=
          (List.countP_eq_length_filter _ _).symm
      _ = List.count sid (db.user_sessions.map (fun s => s.session_id)) := by
          simp only [List.count, List.countP_map]
          rfl
      _ ≤ 1 := hcount
  · intro hmem
    have hall : ∀ s ∈ db.user_sessions, (s.session_id != sid) = true := by
      intro s hs
      simp only [bne_iff_ne, ne_eq]
      intro heq
      exact hmem (heq ▸ List.mem_map_of_mem _ hs)
    simp [remove_user_session, List.filter_eq_self.mpr hall]
  · simp [remove_user_session, List.filter_filter]
  · exact List.Nodup.sublist (List.Sublist.map _ (List.filter_sublist _)) h
  · intro u r t db2 hadd
    unfold add_user_session at hadd
    split at hadd
    · exact absurd hadd (by simp)
    · rename_i hany
      have hnot : sid ∉ db.user_sessions.map (fun s => s.session_id) := by
        intro hmem
        rcases List.mem_map.mp hmem with ⟨s, hs, hfs⟩
        have := List.any_eq_false.mp (Bool.of_not_eq_true hany) s hs
        simp [hfs] at this
      cases hadd
      unfold SessionsOK
      simp only [List.map_append, List.map_cons, List.map_nil]
      rw [List.nodup_append]
      exact ⟨h, List.nodup_singleton _, by simpa [List.disjoint_singleton] using hnot⟩

/-- Witness for C4 at a concrete database, with all hypotheses
discharged: at most one session for `"b"`, removing the absent session
`"b"` is a no-op, removal is idempotent and keeps the invariant, and the
database after a successful insert satisfies the invariant. -/
theorem C4_session_invariant_witness :
    ((DB.mk [] [] [⟨"a", "alice", "lobby", 0⟩]).user_sessions.filter
        (fun s => s.session_id == "b")).length ≤ 1 ∧
    remove_user_session "b" (DB.mk [] [] [⟨"a", "alice", "lobby", 0⟩]) =
      DB.mk [] [] [⟨"a", "alice", "lobby", 0⟩] ∧
    remove_user_session "b" (remove_user_session "b" (DB.mk [] [] [⟨"a", "alice", "lobby", 0⟩])) =
      remove_user_session "b" (DB.mk [] [] [⟨"a", "alice", "lobby", 0⟩]) ∧
    SessionsOK (remove_user_session "b" (DB.mk [] [] [⟨"a", "alice", "lobby", 0⟩])) ∧
    SessionsOK (DB.mk [] [] [⟨"a", "alice", "lobby", 0⟩, ⟨"b", "u", "r", 1⟩]) :=
  have h := C4_session_invariant (DB.mk [] [] [⟨"a", "alice", "lobby", 0⟩]) "b" (by
    unfold SessionsOK
    simp)
  ⟨h.1, h.2.1 (by decide), h.2.2.1, h.2.2.2.1,
    h.2.2.2.2 "u" "r" 1 (DB.mk [] [] [⟨"a", "alice", "lobby", 0⟩, ⟨"b", "u", "r", 1⟩]) rfl⟩

/-- Claim C9: a `disconnect` for a connection with no session changes
nothing and emits nothing; and an internal error during the presence
bookkeeping (the `fault` flag) is caught by the surrounding
`try`/`except`, so the handler still returns cleanly with no emission. -/
theorem C9_disconnect_safe (st : GState) (sid : String) (fault : Bool) :
    (sid ∉ st.db.user_sessions.map (fun s => s.session_id) →
      disconnect fault sid st = (st, [])) ∧
    (fault = true → disconnect fault sid st = (st, [])) := by
  constructor
  · intro hmem
    cases fault
    · have hfind : st.db.user_sessions.find? (fun s => s.session_id == sid) = none := by
        rw [List.find?_eq_none]
        intro s hs
        simp only [beq_iff_eq, ne_eq]
        intro heq
        exact hmem (heq ▸ List.mem_map_of_mem _ hs)
      simp [disconnect, hfind]
    · simp [disconnect]
  · intro hf
    subst hf
    simp [disconnect]

/-- Witness for C9 at a concrete state, hypotheses discharged: a
disconnect for the session-less connection `"z"` and a disconnect whose
bookkeeping faults both return cleanly with no emission. -/
theorem C9_disconnect_safe_witness :
    disconnect false "z" (GState.mk (DB.mk [] [] [⟨"a", "alice", "lobby", 0⟩]) []) =
      (GState.mk (DB.mk [] [] [⟨"a", "alice", "lobby", 0⟩]) [], []) ∧
    disconnect true "a" (GState.mk (DB.mk [] [] [⟨"a", "alice", "lobby", 0⟩]) []) =
      (GState.mk (DB.mk [] [] [⟨"a", "alice", "lobby", 0⟩]) [], []) :=
  ⟨(C9_disconnect_safe (GState.mk (DB.mk [] [] [⟨"a", "alice", "lobby", 0⟩]) []) "z"
      false).1 (by decide),
   (C9_disconnect_safe (GState.mk (DB.mk [] [] [⟨"a", "alice", "lobby", 0⟩]) []) "a"
      true).2 rfl⟩

/-- Claim C7: the active-room listing contains a registered room iff the
room has at least one live message at the query time, every listed room
comes from the registry, and the listing is ordered by creation time
descending. -/
theorem C7_active_rooms (db : DB) (t : Nat) :
    (∀ R ∈ db.rooms, (R ∈ get_active_rooms t db ↔
       ∃ m ∈ db.messages, m.room = R.name ∧ t < m.expires_at)) ∧
    (∀ R ∈ get_active_rooms t db, R ∈ db.rooms) ∧
    List.Sorted roomGe (get_active_rooms t db) := by
  have hmem : ∀ R : RoomRow, R ∈ get_active_rooms t db ↔
      R ∈ db.rooms ∧
        db.messages.any (fun m => m.room == R.name && decide (t < m.expires_at)) = true := by
    intro R
    unfold get_active_rooms
    rw [List.mem_insertionSort, List.mem_dedup, List.mem_filter]
  refine ⟨?_, ?_, ?_⟩
  · intro R hR
    rw [hmem]
    simp [hR, List.any_eq_true]
  · intro R hR
    exact ((hmem R).mp hR).1
  · exact List.sorted_insertionSort roomGe _

/-- Witness for C7 at a concrete database with one live message. -/
theorem C7_active_rooms_witness :
    (∀ R ∈ (DB.mk [⟨0, "a", "hi", "lobby", 0, 300, "text", none, none, none⟩]
        [⟨"lobby", 1⟩] []).rooms,
      (R ∈ get_active_rooms 5 (DB.mk [⟨0, "a", "hi", "lobby", 0, 300, "text", none, none, none⟩]
          [⟨"lobby", 1⟩] []) ↔
        ∃ m ∈ (DB.mk [⟨0, "a", "hi", "lobby", 0, 300, "text", none, none, none⟩]
            [⟨"lobby", 1⟩] []).messages, m.room = R.name ∧ 5 < m.expires_at)) ∧
    (∀ R ∈ get_active_rooms 5 (DB.mk [⟨0, "a", "hi", "lobby", 0, 300, "text", none, none, none⟩]
        [⟨"lobby", 1⟩] []),
      R ∈ (DB.mk [⟨0, "a", "hi", "lobby", 0, 300, "text", none, none, none⟩]
        [⟨"lobby", 1⟩] []).rooms) ∧
    List.Sorted roomGe (get_active_rooms 5
      (DB.mk [⟨0, "a", "hi", "lobby", 0, 300, "text", none, none, none⟩] [⟨"lobby", 1⟩] [])) :=
  C7_active_rooms
    (DB.mk [⟨0, "a", "hi", "lobby", 0, 300, "text", none, none, none⟩] [⟨"lobby", 1⟩] []) 5

/-- Counterexample to C2 as stated: `create_message` reads the clock
twice; with the reads one second apart (first read 0, second read 1) the
stored row has `expires_at = 301` while `createdAt + TTL = 300`, so the
expiry does not equal the creation time plus the TTL exactly. -/
theorem C2_counterexample :
    (create_message (MessageCreate.mk "alice" "hi" "lobby" "text" none none)
        none 0 0 1 init_db).1.messages =
      [MessageRow.mk 0 "alice" "hi" "lobby" 0 301 "text" none none none] ∧
    (301 : Nat) ≠ 0 + TTL := by
  constructor
  · decide
  · decide

/-- Claim C2 (amended): a stored message is returned by the live listing
for its room iff the query time is before its expiry; the listing is
ordered by creation time ascending; `create_message` appends exactly one
row whose expiry is the second clock read plus the TTL, which equals the
creation timestamp plus the TTL exactly when the two clock reads
coincide. -/
theorem C2_live_listing (db : DB) (t : Nat) (md : MessageCreate)
    (fp : Option String) (mid t1 t2 : Nat)
    (hnd : (db.messages.map (fun m => m.id)).Nodup) :
    (∀ r ∈ db.messages, (toMessage r ∈ get_room_messages r.room t db ↔ t < r.expires_at)) ∧
    (∀ room, List.Sorted msgLe (get_room_messages room t db)) ∧
    (create_message md fp mid t1 t2 db).1.messages = db.messages ++ [newRow md fp mid t1 t2] ∧
    (newRow md fp mid t1 t2).expires_at = t2 + TTL ∧
    (t2 = t1 → (newRow md fp mid t1 t2).expires_at = (newRow md fp mid t1 t2).timestamp + TTL) := by
  refine ⟨?_, ?_, rfl, rfl, ?_⟩
  · intro r hr
    constructor
    · intro hin
      unfold get_room_messages at hin
      rcases List.mem_map.mp hin with ⟨r2, hr2, heq⟩
      rw [List.mem_insertionSort, List.mem_filter] at hr2
      obtain ⟨hr2mem, hpred⟩ := hr2
      have hid : r2.id = r.id := by
        have hp : (toMessage r2).id = (toMessage r).id := by rw [heq]
        simpa [toMessage] using hp
      have hreq : r2 = r := List.inj_on_of_nodup_map hnd hr2mem hr hid
      subst hreq
      simpa using hpred
    · intro hlt
      unfold get_room_messages
      apply List.mem_map_of_mem
      rw [List.mem_insertionSort, List.mem_filter]
      exact ⟨hr, by simp [hlt]⟩
  · intro room
    unfold get_room_messages
    exact List.Pairwise.map toMessage (fun a b hab => hab)
      (List.sorted_insertionSort msgRowLe _)
  · intro h
    simp [newRow, h]

/-- Witness for the amended C2 at a concrete database. -/
theorem C2_live_listing_witness :
    (∀ r ∈ (DB.mk [⟨0, "a", "hi", "lobby", 0, 300, "text", none, none, none⟩] [] []).messages,
      (toMessage r ∈ get_room_messages r.room 5
          (DB.mk [⟨0, "a", "hi", "lobby", 0, 300, "text", none, none, none⟩] [] []) ↔
        5 < r.expires_at)) ∧
    (∀ room, List.Sorted msgLe (get_room_messages room 5
        (DB.mk [⟨0, "a", "hi", "lobby", 0, 300, "text", none, none, none⟩] [] []))) ∧
    (create_message (MessageCreate.mk "b" "yo" "lobby" "text" none none) none 1 9 9
        (DB.mk [⟨0, "a", "hi", "lobby", 0, 300, "text", none, none, none⟩] [] [])).1.messages =
      (DB.mk [⟨0, "a", "hi", "lobby", 0, 300, "text", none, none, none⟩] [] []).messages ++
        [newRow (MessageCreate.mk "b" "yo" "lobby" "text" none none) none 1 9 9] ∧
    (newRow (MessageCreate.mk "b" "yo" "lobby" "text" none none) none 1 9 9).expires_at =
      9 + TTL ∧
    ((9 : Nat) = 9 →
      (newRow (MessageCreate.mk "b" "yo" "lobby" "text" none none) none 1 9 9).expires_at =
        (newRow (MessageCreate.mk "b" "yo" "lobby" "text" none none) none 1 9 9).timestamp + TTL) :=
  C2_live_listing (DB.mk [⟨0, "a", "hi", "lobby", 0, 300, "text", none, none, none⟩] [] [])
    5 (MessageCreate.mk "b" "yo" "lobby" "text" none none) none 1 9 9 (by simp)

/-- The file-deletion loop never adds files: the surviving file set is a
subset of the initial one. -/
theorem deleteFiles_fst_subset (ps : List String) (fs : List String) (f : String → Bool) :
    (deleteFiles ps fs f).1 ⊆ fs := by
  induction ps generalizing fs with
  | nil => simp [deleteFiles]
  | cons p ps ih =>
    simp only [deleteFiles]
    split
    · split
      · exact ih fs
      · exact (ih (fs.erase p)).trans (List.erase_subset p fs)
    · exact ih fs

/-- Every path handed to the deletion loop ends up deleted from the file
system or recorded in the error log, provided the file system has no
duplicate and no empty path. -/
theorem deleteFiles_complete (ps : List String) (fs : List String) (f : String → Bool)
    (hnd : fs.Nodup) (hemp : "" ∉ fs) :
    ∀ p ∈ ps, p ∉ (deleteFiles ps fs f).1 ∨ p ∈ (deleteFiles ps fs f).2 := by
  induction ps generalizing fs with
  | nil => simp
  | cons q ps ih =>
    intro p hp
    simp only [deleteFiles]
    split
    · rename_i hq
      split
      · rcases List.mem_cons.mp hp with rfl | hp2
        · right
          exact List.mem_cons_self _ _
        · rcases ih fs hnd hemp p hp2 with hl | hr
          · exact Or.inl hl
          · exact Or.inr (List.mem_cons_of_mem _ hr)
      · rcases List.mem_cons.mp hp with rfl | hp2
        · left
          intro hmem
          exact hnd.not_mem_erase (deleteFiles_fst_subset ps (fs.erase p) f hmem)
        · exact ih (fs.erase q) (hnd.erase q)
            (fun hc => hemp (List.erase_subset q fs hc)) p hp2
    · rename_i hq
      rcases List.mem_cons.mp hp with rfl | hp2
      · left
        intro hmem
        have hin : p ∈ fs := deleteFiles_fst_subset ps fs f hmem
        rcases not_and_or.mp hq with hpe | hpf
        · exact hemp (not_not.mp hpe ▸ hin)
        · exact hpf hin
      · exact ih fs hnd hemp p hp2

/-- Counterexample to C3 as stated: the sweep reads the clock twice
(first read 0 for the path query, second read 1 for the delete). A
message with expiry 1 and attachment path `"p"` is removed by the
delete, yet the returned path list is empty, so the sweep does not
return the attachment paths of the removed rows (the file leaks). -/
theorem C3_counterexample :
    (cleanup_expired_messages 0 1
        (DB.mk [⟨0, "a", "pic", "lobby", 0, 1, "image", none, none, some "p"⟩] [] [])
        ["p"] (fun _ => false)).1.messages = [] ∧
    (cleanup_expired_messages 0 1
        (DB.mk [⟨0, "a", "pic", "lobby", 0, 1, "image", none, none, some "p"⟩] [] [])
        ["p"] (fun _ => false)).2.1 = [] ∧
    (cleanup_expired_messages 0 1
        (DB.mk [⟨0, "a", "pic", "lobby", 0, 1, "image", none, none, some "p"⟩] [] [])
        ["p"] (fun _ => false)).2.2.1 = ["p"] := by
  refine ⟨rfl, rfl, rfl⟩

/-- Claim C3 (amended): the sweep reads the clock twice; it returns the
non-null attachment paths of the rows expired at the first read and
removes the rows expired at the second, so when the two reads coincide
the returned paths are exactly those of the removed rows (rows expiring
between the reads are removed without their paths being returned).
After the sweep no message expired at the second read remains, every row
expired at the first read is gone, and every returned path is removed
from the attachment store or its deletion failure is logged, without
aborting the sweep. -/
theorem C3_sweep (t1 t2 : Nat) (db : DB) (fs : List String) (faults : String → Bool)
    (h12 : t1 ≤ t2) (hnd : fs.Nodup) (hemp : "" ∉ fs) :
    (∀ m ∈ (cleanup_expired_messages t1 t2 db fs faults).1.messages, t2 < m.expires_at) ∧
    (cleanup_expired_messages t1 t2 db fs faults).2.1 =
      (db.messages.filter (fun m => decide (m.expires_at ≤ t1))).filterMap
        (fun m => m.file_path) ∧
    (∀ r ∈ db.messages, r.expires_at ≤ t1 →
      r ∉ (cleanup_expired_messages t1 t2 db fs faults).1.messages) ∧
    (t1 = t2 → (cleanup_expired_messages t1 t2 db fs faults).2.1 =
      (db.messages.filter (fun m => decide (m.expires_at ≤ t2))).filterMap
        (fun m => m.file_path)) ∧
    (∀ p ∈ (cleanup_expired_messages t1 t2 db fs faults).2.1,
      p ∉ (cleanup_expired_messages t1 t2 db fs faults).2.2.1 ∨
        p ∈ (cleanup_expired_messages t1 t2 db fs faults).2.2.2) := by
  refine ⟨?_, rfl, ?_, ?_, ?_⟩
  · intro m hm
    have := (List.mem_filter.mp hm).2
    simp only [Bool.not_eq_eq_eq_not, Bool.not_true, decide_eq_false_iff_not,
      not_le] at this
    exact this
  · intro r hr hexp hmem
    have := (List.mem_filter.mp hmem).2
    simp only [Bool.not_eq_eq_eq_not, Bool.not_true, decide_eq_false_iff_not,
      not_le] at this
    omega
  · intro heq
    subst heq
    rfl
  · intro p hp
    exact deleteFiles_complete _ fs faults hnd hemp p hp

/-- Witness for the amended C3 at a concrete database. -/
theorem C3_sweep_witness :
    (∀ m ∈ (cleanup_expired_messages 10 10
        (DB.mk [⟨0, "a", "pic", "lobby", 0, 1, "image", none, none, some "p"⟩] [] [])
        ["p"] (fun _ => false)).1.messages, 10 < m.expires_at) ∧
    (cleanup_expired_messages 10 10
        (DB.mk [⟨0, "a", "pic", "lobby", 0, 1, "image", none, none, some "p"⟩] [] [])
        ["p"] (fun _ => false)).2.1 =
      ((DB.mk [⟨0, "a", "pic", "lobby", 0, 1, "image", none, none, some "p"⟩] [] []).messages.filter
        (fun m => decide (m.expires_at ≤ 10))).filterMap (fun m => m.file_path) ∧
    (∀ r ∈ (DB.mk [⟨0, "a", "pic", "lobby", 0, 1, "image", none, none, some "p"⟩] [] []).messages,
      r.expires_at ≤ 10 →
        r ∉ (cleanup_expired_messages 10 10
          (DB.mk [⟨0, "a", "pic", "lobby", 0, 1, "image", none, none, some "p"⟩] [] [])
          ["p"] (fun _ => false)).1.messages) ∧
    ((10 : Nat) = 10 → (cleanup_expired_messages 10 10
        (DB.mk [⟨0, "a", "pic", "lobby", 0, 1, "image", none, none, some "p"⟩] [] [])
        ["p"] (fun _ => false)).2.1 =
      ((DB.mk [⟨0, "a", "pic", "lobby", 0, 1, "image", none, none, some "p"⟩] [] []).messages.filter
        (fun m => decide (m.expires_at ≤ 10))).filterMap (fun m => m.file_path)) ∧
    (∀ p ∈ (cleanup_expired_messages 10 10
        (DB.mk [⟨0, "a", "pic", "lobby", 0, 1, "image", none, none, some "p"⟩] [] [])
        ["p"] (fun _ => false)).2.1,
      p ∉ (cleanup_expired_messages 10 10
        (DB.mk [⟨0, "a", "pic", "lobby", 0, 1, "image", none, none, some "p"⟩] [] [])
        ["p"] (fun _ => false)).2.2.1 ∨
        p ∈ (cleanup_expired_messages 10 10
          (DB.mk [⟨0, "a", "pic", "lobby", 0, 1, "image", none, none, some "p"⟩] [] [])
          ["p"] (fun _ => false)).2.2.2) :=
  C3_sweep 10 10
    (DB.mk [⟨0, "a", "pic", "lobby", 0, 1, "image", none, none, some "p"⟩] [] [])
    ["p"] (fun _ => false) (by decide) (by simp) (by simp)

/-- `create_room` never touches the session table. -/
theorem create_room_user_sessions (name : String) (t : Nat) (db : DB) :
    ((create_room name t db).1).user_sessions = db.user_sessions := by
  unfold create_room
  split <;> rfl

/-- A present non-empty string field is truthy. -/
theorem truthy_some_of_ne (s : String) (h : s ≠ "") : truthy (some s) = true := by
  simp [truthy, h]

/-- Counterexample to C1 as stated: connection `"s1"` already has a
session in `"lobby"`; a join for `"den"` hits the `session_id` primary
key, the `IntegrityError` escapes the handler (`raised = true`), the
prior session is NOT closed, no new session is opened, and nothing is
emitted — the room row for `"den"` (inserted before the failure) is the
only change. -/
theorem C1_counterexample :
    join_room "s1" (some "den") (some "alice") 5 5 5
        (GState.mk (DB.mk [] [] [⟨"s1", "alice", "lobby", 0⟩]) [("lobby", "s1")]) =
      ⟨GState.mk (DB.mk [] [⟨"den", 5⟩] [⟨"s1", "alice", "lobby", 0⟩]) [("lobby", "s1")],
        [], true⟩ := by
  rfl

/-- Claim C1 (amended): a join with non-empty room and username on a
connection that already has an open session does not supersede it: the
duplicate-key insert raises, the exception escapes the handler, the
prior session is kept, no new session is opened, and no event (in
particular no error event) is emitted to the client. -/
theorem C1_join_duplicate (st : GState) (sid room username : String) (t1 t2 t3 : Nat)
    (hroom : room ≠ "") (huser : username ≠ "")
    (hdup : ∃ s ∈ st.db.user_sessions, s.session_id = sid) :
    (join_room sid (some room) (some username) t1 t2 t3 st).raised = true ∧
    (join_room sid (some room) (some username) t1 t2 t3 st).state.db.user_sessions =
      st.db.user_sessions ∧
    (join_room sid (some room) (some username) t1 t2 t3 st).emits = [] := by
  have htr := truthy_some_of_ne room hroom
  have htu := truthy_some_of_ne username huser
  have hany : ((create_room room t1 st.db).1).user_sessions.any
      (fun s => s.session_id == sid) = true := by
    rw [create_room_user_sessions, List.any_eq_true]
    rcases hdup with ⟨s, hs, hss⟩
    exact ⟨s, hs, by simp [hss]⟩
  have hadd : add_user_session sid username room t2 ((create_room room t1 st.db).1) =
      .error () := by
    unfold add_user_session
    rw [if_pos hany]
  refine ⟨?_, ?_, ?_⟩ <;>
    simp [join_room, htr, htu, hadd, create_room_user_sessions]

/-- Witness for the amended C1 at a concrete state. -/
theorem C1_join_duplicate_witness :
    (join_room "s1" (some "den") (some "alice") 5 5 5
        (GState.mk (DB.mk [] [] [⟨"s1", "alice", "lobby", 0⟩]) [("lobby", "s1")])).raised = true ∧
    (join_room "s1" (some "den") (some "alice") 5 5 5
        (GState.mk (DB.mk [] [] [⟨"s1", "alice", "lobby", 0⟩])
          [("lobby", "s1")])).state.db.user_sessions =
      (GState.mk (DB.mk [] [] [⟨"s1", "alice", "lobby", 0⟩])
        [("lobby", "s1")]).db.user_sessions ∧
    (join_room "s1" (some "den") (some "alice") 5 5 5
        (GState.mk (DB.mk [] [] [⟨"s1", "alice", "lobby", 0⟩]) [("lobby", "s1")])).emits = [] :=
  C1_join_duplicate (GState.mk (DB.mk [] [] [⟨"s1", "alice", "lobby", 0⟩]) [("lobby", "s1")])
    "s1" "den" "alice" 5 5 5 (by decide) (by decide)
    ⟨⟨"s1", "alice", "lobby", 0⟩, by simp, rfl⟩

/-- Claim C8: a successful join (non-empty fields, no existing session
for the connection) emits exactly two events, in order: `room_history`
to the joining sid alone, then `user_joined` to the room's members
except the joiner; no exception escapes. -/
theorem C8_join_history_first (st : GState) (sid room username : String) (t1 t2 t3 : Nat)
    (hroom : room ≠ "") (huser : username ≠ "")
    (hfree : ∀ s ∈ st.db.user_sessions, s.session_id ≠ sid) :
    ∃ db2 msgs users,
      join_room sid (some room) (some username) t1 t2 t3 st =
        ⟨GState.mk db2 (sioEnterRoom sid room st.members),
         [⟨[sid], EventPayload.roomHistory msgs users⟩,
          ⟨(roomMembersL (sioEnterRoom sid room st.members) room).filter (fun x => x != sid),
            EventPayload.userJoined username room users⟩],
         false⟩ := by
  have htr := truthy_some_of_ne room hroom
  have htu := truthy_some_of_ne username huser
  have hany : ((create_room room t1 st.db).1).user_sessions.any
      (fun s => s.session_id == sid) = false := by
    rw [create_room_user_sessions, List.any_eq_false]
    intro s hs
    simpa using hfree s hs
  have hadd : add_user_session sid username room t2 ((create_room room t1 st.db).1) =
      .ok {(create_room room t1 st.db).1 with
        user_sessions := ((create_room room t1 st.db).1).user_sessions ++
          [⟨sid, username, room, t2⟩]} := by
    unfold add_user_session
    rw [if_neg]
    simp [hany]
  refine ⟨{(create_room room t1 st.db).1 with user_sessions :=
      ((create_room room t1 st.db).1).user_sessions ++ [⟨sid, username, room, t2⟩]},
    get_room_messages room t3
      {(create_room room t1 st.db).1 with user_sessions :=
        ((create_room room t1 st.db).1).user_sessions ++ [⟨sid, username, room, t2⟩]},
    get_room_active_users room
      {(create_room room t1 st.db).1 with user_sessions :=
        ((create_room room t1 st.db).1).user_sessions ++ [⟨sid, username, room, t2⟩]}, ?_⟩
  simp [join_room, htr, htu, hadd]

/-- Witness for C8 at a concrete state. -/
theorem C8_join_history_first_witness :
    ∃ db2 msgs users,
      join_room "s1" (some "lobby") (some "alice") 0 0 0
          (GState.mk (DB.mk [] [] []) []) =
        ⟨GState.mk db2 (sioEnterRoom "s1" "lobby" []),
         [⟨["s1"], EventPayload.roomHistory msgs users⟩,
          ⟨(roomMembersL (sioEnterRoom "s1" "lobby" []) "lobby").filter (fun x => x != "s1"),
            EventPayload.userJoined "alice" "lobby" users⟩],
         false⟩ :=
  C8_join_history_first (GState.mk (DB.mk [] [] []) []) "s1" "lobby" "alice" 0 0 0
    (by decide) (by decide) (by simp)

/-- Counterexample to C6 as stated: `"A"` (alice) and `"B"` (bob) are
both in `"lobby"`; alice leaves with room and username supplied. The
handler drops alice from the Socket.IO room before emitting, so the
`user_left` event reaches only `["B"]` — not the whole room including
the leaver, contrary to the claim. -/
theorem C6_counterexample :
    leave_room "A" (some "lobby") (some "alice")
        (GState.mk (DB.mk [] [] [⟨"A", "alice", "lobby", 0⟩, ⟨"B", "bob", "lobby", 0⟩])
          [("lobby", "A"), ("lobby", "B")]) =
      (GState.mk (DB.mk [] [] [⟨"B", "bob", "lobby", 0⟩]) [("lobby", "B")],
       [⟨["B"], EventPayload.userLeft "alice" "lobby" ["bob"]⟩]) ∧
    "A" ∉ (["B"] : List String) := by
  exact ⟨rfl, by decide⟩

/-- Claim C6 (amended): a leave with empty/missing room is a no-op;
otherwise the connection leaves the transport room and its session is
removed; when the username is also non-empty, `user_left` (username,
room, updated occupant list) is emitted to the room's remaining members
— the leaver is never among the recipients, having left the transport
room first — and when the username is empty/missing nothing is emitted
although the session is still removed. -/
theorem C6_leave (st : GState) (sid : String) (droom duser : Option String) :
    (truthy droom = false → leave_room sid droom duser st = (st, [])) ∧
    (∀ room, droom = some room → room ≠ "" →
      (∀ username, duser = some username → username ≠ "" →
        leave_room sid droom duser st =
          (GState.mk (remove_user_session sid st.db) (sioLeaveRoom sid room st.members),
           [⟨roomMembersL (sioLeaveRoom sid room st.members) room,
             EventPayload.userLeft username room
               (get_room_active_users room (remove_user_session sid st.db))⟩])) ∧
      (truthy duser = false →
        leave_room sid droom duser st =
          (GState.mk (remove_user_session sid st.db) (sioLeaveRoom sid room st.members), [])) ∧
      sid ∉ roomMembersL (sioLeaveRoom sid room st.members) room) := by
  refine ⟨?_, ?_⟩
  · intro hfalse
    simp [leave_room, hfalse]
  · intro room hr hrne
    subst hr
    have htr := truthy_some_of_ne room hrne
    refine ⟨?_, ?_, ?_⟩
    · intro username hu hune
      subst hu
      have htu := truthy_some_of_ne username hune
      simp [leave_room, htr, htu]
    · intro hufalse
      simp [leave_room, htr, hufalse]
    · intro hmem
      simp only [roomMembersL, sioLeaveRoom, List.mem_map, List.mem_filter] at hmem
      rcases hmem with ⟨p, ⟨⟨hpmem, hpkeep⟩, hp1⟩, hp2⟩
      simp [hp1, hp2] at hpkeep

/-- Witness for the amended C6 at a concrete state, hypotheses
discharged: alice's leave removes her session, drops her from the
transport room, emits `user_left` to the remaining members, and she is
not among the recipients. -/
theorem C6_leave_witness :
    leave_room "A" (some "lobby") (some "alice")
        (GState.mk (DB.mk [] [] [⟨"A", "alice", "lobby", 0⟩, ⟨"B", "bob", "lobby", 0⟩])
          [("lobby", "A"), ("lobby", "B")]) =
      (GState.mk
        (remove_user_session "A"
          (DB.mk [] [] [⟨"A", "alice", "lobby", 0⟩, ⟨"B", "bob", "lobby", 0⟩]))
        (sioLeaveRoom "A" "lobby" [("lobby", "A"), ("lobby", "B")]),
       [⟨roomMembersL (sioLeaveRoom "A" "lobby" [("lobby", "A"), ("lobby", "B")]) "lobby",
         EventPayload.userLeft "alice" "lobby"
           (get_room_active_users "lobby"
             (remove_user_session "A"
               (DB.mk [] [] [⟨"A", "alice", "lobby", 0⟩, ⟨"B", "bob", "lobby", 0⟩])))⟩]) ∧
    "A" ∉ roomMembersL (sioLeaveRoom "A" "lobby" [("lobby", "A"), ("lobby", "B")]) "lobby" :=
  have h := (C6_leave
    (GState.mk (DB.mk [] [] [⟨"A", "alice", "lobby", 0⟩, ⟨"B", "bob", "lobby", 0⟩])
      [("lobby", "A"), ("lobby", "B")]) "A" (some "lobby") (some "alice")).2
      "lobby" rfl (by decide)
  ⟨h.1 "alice" rfl (by decide), h.2.2⟩

/-- Counterexample to C5 as stated: a send whose room and username are
both the empty string passes pydantic validation — the message is stored
(one row appended) and `new_message` is broadcast to the (empty) room,
instead of an error being emitted to the sender and nothing stored. -/
theorem C5_counterexample :
    send_message "s1" (SendData.mk (some "") (some "hi") (some "") none none none) 0 0 0
        (GState.mk init_db []) =
      (GState.mk (DB.mk [newRow (MessageCreate.mk "" "hi" "" "text" none none) none 0 0 0] [] [])
        [],
       [⟨[], EventPayload.newMessage (Message.mk 0 "" "hi" "" 0 "text" none none)⟩]) := by
  rfl

/-- Claim C5 (amended): a send whose username or room field is MISSING
emits an error to the sender only and stores nothing; but empty-string
fields pass validation, in which case the message is appended to the
store and `new_message` is broadcast to the members of the (possibly
empty-named) room — the non-emptiness precondition is not enforced. -/
theorem C5_send_validation (st : GState) (sid : String) (d : SendData) (mid t1 t2 : Nat) :
    ((d.username = none ∨ d.room = none) →
      send_message sid d mid t1 t2 st =
        (st, [⟨[sid], EventPayload.errorMsg "Error sending message: validation error"⟩])) ∧
    (∀ u c r, d.username = some u → d.content = some c → d.room = some r →
      send_message sid d mid t1 t2 st =
        (GState.mk
          {st.db with messages := st.db.messages ++
            [newRow (MessageCreate.mk u c r (d.message_type.getD "text")
              d.image_url d.voice_url) none mid t1 t2]} st.members,
         [⟨roomMembersL st.members r,
           EventPayload.newMessage (Message.mk mid u c r t1 (d.message_type.getD "text")
             d.image_url d.voice_url)⟩])) := by
  obtain ⟨du, dc, dr, dm, di, dv⟩ := d
  constructor
  · intro hmiss
    rcases du with _ | u <;> rcases dc with _ | c <;> rcases dr with _ | r <;>
      simp_all [send_message, parseMessageCreate]
  · intro u c r hu hc hr
    cases hu
    cases hc
    cases hr
    simp [send_message, parseMessageCreate, create_message]

/-- Witness for the amended C5, hypotheses discharged at two concrete
sends: one with the username missing (error to self, nothing stored) and
one with all fields present (message appended and broadcast). -/
theorem C5_send_validation_witness :
    send_message "s1" (SendData.mk none (some "hi") (some "lobby") none none none) 0 0 0
        (GState.mk init_db []) =
      (GState.mk init_db [],
       [⟨["s1"], EventPayload.errorMsg "Error sending message: validation error"⟩]) ∧
    send_message "s1" (SendData.mk (some "alice") (some "hi") (some "lobby") none none none)
        0 0 0 (GState.mk init_db []) =
      (GState.mk
        {init_db with messages := init_db.messages ++
          [newRow (MessageCreate.mk "alice" "hi" "lobby" "text" none none) none 0 0 0]} [],
       [⟨roomMembersL [] "lobby",
         EventPayload.newMessage (Message.mk 0 "alice" "hi" "lobby" 0 "text" none none)⟩]) :=
  ⟨(C5_send_validation (GState.mk init_db []) "s1"
      (SendData.mk none (some "hi") (some "lobby") none none none) 0 0 0).1 (Or.inl rfl),
   (C5_send_validation (GState.mk init_db []) "s1"
      (SendData.mk (some "alice") (some "hi") (some "lobby") none none none) 0 0 0).2
      "alice" "hi" "lobby" rfl rfl rfl⟩

end FiveMChat
